import Mathlib

/-!
Verification of the alarm scheduling and audio coordination engine of
pi-alarm-block, as a shallow embedding of the Python source.

The embedding follows the source files:
  * `backend/models/alarm.py` (the `Alarm` domain model, `to_dict`/`from_dict`),
  * `backend/services/alarm_manager.py` (`AlarmManager`: store, scheduler
    bookkeeping, persistence, `_trigger_alarm` gating),
  * `backend/services/audio_helpers/alarm_audio.py` (`AlarmAudio`),
  * `backend/services/audio_helpers/white_noise.py` (`WhiteNoiseAudio`),
  * `backend/services/audio_manager.py` (`AudioManager` facade).

Python `int` is modelled as `Int`, Python `set[int]` as `Finset Int`,
Python `dict` as an association list with replace-on-insert semantics,
raised exceptions as an `Option String` error component, and the pygame
mixer channel state as an explicit record. Channel volumes are tracked at
integer-percent granularity (the code always passes `v / 100.0` for an
integer `v`).
-/

namespace PiAlarmBlock

/-- The `ScheduleType` values from `backend/services/settings_manager.py`:
`A = "a"`, `B = "b"`, `OFF = "off"`. The code compares plain strings
(`schedule == ScheduleType.OFF.value`), so the model keeps strings. -/
def scheduleOff : String := "off"

/-- Validation message raised by `set_alarm` for an empty day set. -/
def errNoDays : String := "Alarm must have at least one day selected"

/-- Validation message raised by `set_alarm` for an out-of-range hour. -/
def errHourRange : String := "Hour must be between 0 and 23"

/-- Validation message raised by `set_alarm` for an out-of-range minute. -/
def errMinuteRange : String := "Minute must be between 0 and 59"

/-- Validation message raised by `adjust_volume` for an out-of-range volume. -/
def errVolumeRange : String := "Volume must be between 0 and 100"

/-- Key of the white-noise sound in the shared `self._sounds` dictionary. -/
def whiteNoiseKey : String := "white_noise"

/-- The `Alarm` domain model (`backend/models/alarm.py`). The constructor
validates through the pydantic `AlarmBase` model; `alarmValid` below captures
exactly those constraints. Fields mirror the Python attributes. -/
structure Alarm where
  id : String
  hour : Int
  minute : Int
  days : Finset Int
  schedule : String
  active : Bool
deriving DecidableEq

/-- The pydantic `AlarmBase` validation (`backend/models/alarm.py`):
`hour ∈ [0,23]`, `minute ∈ [0,59]`, `days` a set with between 1 and 7
elements each in `[0,6]`, `schedule ∈ {"a","b"}`. -/
def alarmValid (a : Alarm) : Prop :=
  0 ≤ a.hour ∧ a.hour ≤ 23 ∧
  0 ≤ a.minute ∧ a.minute ≤ 59 ∧
  1 ≤ a.days.card ∧ a.days.card ≤ 7 ∧
  (∀ d ∈ a.days, 0 ≤ d ∧ d ≤ 6) ∧
  (a.schedule = "a" ∨ a.schedule = "b")

instance (a : Alarm) : Decidable (alarmValid a) := by
  unfold alarmValid; infer_instance

/-- One serialized alarm record, as produced by `Alarm.to_dict`: the same
fields, with `days` as a list of ints (`list(self.days)`). -/
structure AlarmDict where
  id : String
  hour : Int
  minute : Int
  days : List Int
  schedule : String
  active : Bool
deriving DecidableEq

/-- Model of `Alarm.to_dict` (`backend/models/alarm.py`): serializes the alarm,
converting the `days` set to a list. Python's `list(set)` enumerates in an
unspecified order; the model enumerates in increasing order, which is one
admissible order and is irrelevant to all set-level properties. -/
def Alarm.to_dict (a : Alarm) : AlarmDict :=
  { id := a.id
    hour := a.hour
    minute := a.minute
    days := a.days.sort (· ≤ ·)
    schedule := a.schedule
    active := a.active }

/-- The validation applied by `AlarmBase` to a deserialized record: the
`days` list is first converted to a set (`convert_days_to_set`), then the
size and range constraints are checked. -/
def alarmDictValid (d : AlarmDict) : Prop :=
  0 ≤ d.hour ∧ d.hour ≤ 23 ∧
  0 ≤ d.minute ∧ d.minute ≤ 59 ∧
  1 ≤ d.days.toFinset.card ∧ d.days.toFinset.card ≤ 7 ∧
  (∀ x ∈ d.days.toFinset, 0 ≤ x ∧ x ≤ 6) ∧
  (d.schedule = "a" ∨ d.schedule = "b")

instance (d : AlarmDict) : Decidable (alarmDictValid d) := by
  unfold alarmDictValid; infer_instance

/-- Model of `Alarm.from_dict` (`backend/models/alarm.py`): validates through
`AlarmBase` (raising `ValueError` on failure, modelled as `none`) and
rebuilds the domain object, with `days` as a set. -/
def Alarm.from_dict (d : AlarmDict) : Option Alarm :=
  if alarmDictValid d then
    some { id := d.id
           hour := d.hour
           minute := d.minute
           days := d.days.toFinset
           schedule := d.schedule
           active := d.active }
  else none

/-- The in-memory alarm store: Python `dict[str, Alarm]`, modelled as an
association list in insertion order. -/
abbrev AlarmStore := List (String × Alarm)

/-- Lookup `self.alarms.get(alarm_id)`: first binding for the key, if any. -/
def storeGet (s : AlarmStore) (id : String) : Option Alarm :=
  (s.find? (fun p => p.1 == id)).map Prod.snd

/-- Membership test `alarm_id in self.alarms`. -/
def storeContains (s : AlarmStore) (id : String) : Bool :=
  s.any (fun p => p.1 == id)

/-- Assignment `self.alarms[id] = a`: replace the existing binding in place, or append
a new one (Python dict insertion-order semantics). -/
def storeSet (s : AlarmStore) (id : String) (a : Alarm) : AlarmStore :=
  if storeContains s id then
    s.map (fun p => if p.1 == id then (id, a) else p)
  else s ++ [(id, a)]

/-- Deletion `del self.alarms[id]`. -/
def storeDel (s : AlarmStore) (id : String) : AlarmStore :=
  s.filter (fun p => p.1 != id)

/-- Serialization performed by `_save_alarms` (`backend/services/alarm_manager.py`):
`[alarm.to_dict() for alarm in self.alarms.values()]`. The JSON layer
(`json.dump`/`json.load`) round-trips these records exactly, so the model
works at the record level. -/
def saveAlarms (alarms : List Alarm) : List AlarmDict :=
  alarms.map Alarm.to_dict

/-- Record loop of `_load_alarms` (`backend/services/alarm_manager.py`):
each record goes through `Alarm.from_dict`; a record failing validation is
logged and skipped; valid alarms are inserted keyed by id (later records
overwrite earlier ones with the same id, as in Python dict assignment). -/
def loadAlarms (data : List AlarmDict) : AlarmStore :=
  data.foldl
    (fun acc d =>
      match Alarm.from_dict d with
      | some a => storeSet acc a.id a
      | none => acc)
    []

/-- Model of `AlarmManager._trigger_alarm` (`backend/services/alarm_manager.py`):
look up the alarm; absent → block; schedule `"off"` → block; schedule
mismatch → block; inactive → block; otherwise call
`audio_manager.play_alarm()`. The result is whether `play_alarm` is
invoked; every branch returns normally (the body is wrapped in a
catch-all `except`), so blocking never raises. -/
def triggerAlarm (alarms : AlarmStore) (schedule : String) (alarmId : String) : Bool :=
  match storeGet alarms alarmId with
  | none => false
  | some alarm =>
    if schedule = scheduleOff then false
    else if schedule ≠ alarm.schedule then false
    else if !alarm.active then false
    else true

/-! ### AlarmManager state machine: `set_alarm`, `remove_alarms`, persistence -/

/-- One file-system operation performed by the persistence layer. -/
inductive FsOp
  | write (path : String) (content : List AlarmDict)
  | rename (src dst : String)
deriving DecidableEq

/-- The target path, `PROJECT_DATA_DIR / "alarms.json"`. -/
def alarmsFilePath : String := "alarms.json"

/-- The file-system trace of `AlarmManager._save_alarms`
(`backend/services/alarm_manager.py` lines 204–229): it serializes every
alarm in the store and performs exactly one operation,
`open(self.file_path, 'w')` followed by `json.dump` — a direct in-place
write to the target path. No temporary file is created and no rename is
performed. -/
def saveAlarmsFsTrace (alarms : List Alarm) : List FsOp :=
  [FsOp.write alarmsFilePath (saveAlarms alarms)]

/-- The observable state of an `AlarmManager`: the in-memory store, the
set of APScheduler job ids, the last persisted snapshot (`none` while no
save has happened), and the list of `broadcast_alarm_update` payloads
pushed to the websocket manager. -/
structure AlarmManagerState where
  alarms : AlarmStore
  schedulerJobs : List String
  savedFile : Option (List AlarmDict)
  broadcasts : List (List AlarmDict)
deriving DecidableEq

/-- Model of `AlarmManager._schedule_remove`: `scheduler.remove_job(id)` with the
exception (job absent) swallowed — remove the job if present. -/
def scheduleRemove (jobs : List String) (id : String) : List String :=
  jobs.filter (fun j => j ≠ id)

/-- Model of `AlarmManager._schedule_add`: remove any existing job for the id, then
add a cron job keyed by the alarm id. -/
def scheduleAdd (jobs : List String) (id : String) : List String :=
  scheduleRemove jobs id ++ [id]

/-- The serialized snapshot of the current store, as both `_save_alarms`
and the broadcast payload compute it:
`[a.to_dict() for a in self.alarms.values()]`. -/
def storeSnapshot (alarms : AlarmStore) : List AlarmDict :=
  saveAlarms (alarms.map Prod.snd)

/-- Model of `AlarmManager.set_alarm` (`backend/services/alarm_manager.py` lines
113–159). Validation runs before any mutation: empty `days` (the
`isinstance` guard is vacuous here since `days` is a set by construction),
`hour` outside `[0,23]`, or `minute` outside `[0,59]` raises `ValueError`
(modelled as `some msg`) with the state untouched. Otherwise, under the
lock: insert/replace in the store, reschedule, save, broadcast. -/
def setAlarm (st : AlarmManagerState) (a : Alarm) : AlarmManagerState × Option String :=
  if a.days = ∅ then
    (st, some errNoDays)
  else if ¬(0 ≤ a.hour ∧ a.hour ≤ 23) then
    (st, some errHourRange)
  else if ¬(0 ≤ a.minute ∧ a.minute ≤ 59) then
    (st, some errMinuteRange)
  else
    let alarms := storeSet st.alarms a.id a
    ({ alarms := alarms
       schedulerJobs := scheduleAdd st.schedulerJobs a.id
       savedFile := some (storeSnapshot alarms)
       broadcasts := st.broadcasts ++ [storeSnapshot alarms] }, none)

/-- The loop body of `AlarmManager.remove_alarms`: if the id is present,
delete it from the store and the scheduler; otherwise clear the
`removed_all` flag and continue. -/
def removeAlarmsStep (acc : AlarmStore × List String × Bool) (id : String) :
    AlarmStore × List String × Bool :=
  let (alarms, jobs, removedAll) := acc
  if storeContains alarms id then
    (storeDel alarms id, scheduleRemove jobs id, removedAll)
  else
    (alarms, jobs, false)

/-- Model of `AlarmManager.remove_alarms` (`backend/services/alarm_manager.py` lines
161–202). An empty id list returns `True` immediately without saving or
broadcasting. Otherwise each id is processed in order (missing ids only
clear the flag, they never raise), then the store is saved and broadcast
once. Returns the `removed_all` flag. -/
def removeAlarms (st : AlarmManagerState) (ids : List String) :
    AlarmManagerState × Bool :=
  if ids = [] then (st, true)
  else
    let r := ids.foldl removeAlarmsStep (st.alarms, st.schedulerJobs, true)
    ({ alarms := r.1
       schedulerJobs := r.2.1
       savedFile := some (storeSnapshot r.1)
       broadcasts := st.broadcasts ++ [storeSnapshot r.1] }, r.2.2)

/-! ### Audio coordinator: `AlarmAudio`, `WhiteNoiseAudio`, `AudioManager` -/

/-- A pygame mixer channel as the helpers observe it: whether it is busy
and its current volume (integer percent; the code always sets
`v / 100.0` for an integer `v` and reads back `get_volume() * 100`). -/
structure PygameChannel where
  busy : Bool
  volume : Int
deriving DecidableEq

/-- A websocket push performed by the audio helpers:
`broadcast_alarm_status`, `broadcast_white_noise_status`,
`broadcast_volume_update`. -/
inductive Notification
  | alarmStatus (playing : Bool)
  | whiteNoiseStatus (playing : Bool)
  | volumeUpdate (v : Int)
deriving DecidableEq

/-- The combined observable state of `AudioManager` and its two helpers
(`backend/services/audio_manager.py`,
`backend/services/audio_helpers/alarm_audio.py`,
`backend/services/audio_helpers/white_noise.py`). `sounds` holds the keys
of the shared `self._sounds` dictionary; `freeChannelAvailable` models
whether `pygame.mixer.find_channel()` returns a channel. -/
structure AudioState where
  alarmPlaying : Bool
  alarmChannel : Option PygameChannel
  alarmSounds : List String
  alarmVolume : Int
  whiteNoisePlaying : Bool
  whiteNoiseChannel : Option PygameChannel
  volume : Int
  previousVolume : Int
  settingsVolume : Option Int
  sounds : List String
  freeChannelAvailable : Bool
  notifications : List Notification
deriving DecidableEq

/-- Model of `AlarmAudio.is_alarm_playing`:
`self._alarm_channel is not None and self._alarm_channel.get_busy()`. -/
def isAlarmPlaying (s : AudioState) : Bool :=
  match s.alarmChannel with
  | some c => c.busy
  | none => false

/-- Model of `WhiteNoiseAudio.is_white_noise_playing`: the internal flag, the
stored channel, and the channel's `get_busy()` must all agree (the mixer
is initialized in every reachable state of the running service). -/
def isWhiteNoisePlaying (s : AudioState) : Bool :=
  s.whiteNoisePlaying &&
    (match s.whiteNoiseChannel with
     | some c => c.busy
     | none => false)

/-- Model of `AlarmAudio.stop_alarm` (`alarm_audio.py` lines 184–218): clear the
flag and the channel reference, stop the mixer channel if it was busy
(the reference is dropped and no other state field aliases it), and
broadcast `alarm_status(False)` only when the flag was set. Returns
`None` in Python, so the model returns just the state. -/
def stopAlarm (s : AudioState) : AudioState :=
  let wasPlaying := s.alarmPlaying
  let s' := { s with alarmPlaying := false, alarmChannel := none }
  if wasPlaying then
    { s' with notifications := s'.notifications ++ [Notification.alarmStatus false] }
  else s'

/-- Model of `WhiteNoiseAudio.stop_white_noise` (`white_noise.py` lines 149–175):
same shape as `stopAlarm`, broadcasting `white_noise_status(False)` only
when the flag was set. Returns `None` in Python. -/
def stopWhiteNoise (s : AudioState) : AudioState :=
  let wasPlaying := s.whiteNoisePlaying
  let s' := { s with whiteNoisePlaying := false, whiteNoiseChannel := none }
  if wasPlaying then
    { s' with notifications := s'.notifications ++ [Notification.whiteNoiseStatus false] }
  else s'

/-- Model of `WhiteNoiseAudio.play_white_noise` as invoked by
`AudioManager.play_white_noise` (the alarm-state callback is
`AlarmAudio.is_alarm_playing`): validate the sound is loaded, stop any
current playback, find a channel, choose `min(volume, 0)` when the alarm
is playing (mute) else the stored volume, start looped playback, record
the channel, the flag and `previous_volume`, broadcast, return `True`. -/
def playWhiteNoise (s : AudioState) : AudioState × Bool :=
  if whiteNoiseKey ∉ s.sounds then
    ({ s with whiteNoisePlaying := false }, false)
  else
    let s1 := stopWhiteNoise s
    if !s1.freeChannelAvailable then
      ({ s1 with whiteNoisePlaying := false }, false)
    else
      let vol := if isAlarmPlaying s1 then min s1.volume 0 else s1.volume
      ({ s1 with
          whiteNoiseChannel := some { busy := true, volume := vol }
          whiteNoisePlaying := true
          previousVolume := s1.volume
          notifications := s1.notifications ++ [Notification.whiteNoiseStatus true] },
       true)

/-- Model of `AlarmAudio.play_alarm` as invoked by `AudioManager.play_alarm`
(`alarm_audio.py` lines 108–182, `audio_manager.py` lines 160–170, which
always passes the white-noise helper): empty sound pool → `False` with no
state change; otherwise stop any current alarm, stop white noise, pick a
sound (`random.choice`, modelled by the index `choice`), find a channel
(failure → `False`, but the stops have already happened), set the alarm
volume, verify the selected key is loaded, start looped playback, record
channel and flag, broadcast `alarm_status(True)`, return `True`. -/
def playAlarm (s : AudioState) (choice : Nat) : AudioState × Bool :=
  if s.alarmSounds = [] then (s, false)
  else
    let s1 := stopWhiteNoise (stopAlarm s)
    let selected := s.alarmSounds.getD (choice % s.alarmSounds.length) ""
    if !s1.freeChannelAvailable then (s1, false)
    else if selected ∉ s1.sounds then (s1, false)
    else
      ({ s1 with
          alarmChannel := some { busy := true, volume := s1.alarmVolume }
          alarmPlaying := true
          notifications := s1.notifications ++ [Notification.alarmStatus true] },
       true)

/-- Model of `WhiteNoiseAudio.adjust_volume` (`white_noise.py` lines 177–215):
out-of-range volume raises `ValueError` (modelled as `some msg`) before
any mutation; otherwise store the volume (and `previous_volume`), apply
it to the live channel when playing, persist it through the settings
manager, and broadcast the update. -/
def adjustVolume (s : AudioState) (v : Int) : AudioState × Option String :=
  if ¬(0 ≤ v ∧ v ≤ 100) then
    (s, some errVolumeRange)
  else
    let s1 := { s with volume := v, previousVolume := v }
    let s2 :=
      if isWhiteNoisePlaying s1 then
        match s1.whiteNoiseChannel with
        | some c => { s1 with whiteNoiseChannel := some { c with volume := v } }
        | none => s1
      else s1
    ({ s2 with
        settingsVolume := some v
        notifications := s2.notifications ++ [Notification.volumeUpdate v] },
     none)

/-- Model of `AudioManager.toggle_white_noise` (`audio_manager.py` lines 221–233):
if white noise is playing, `return self.stop_white_noise()` — a method
whose Python return value is `None`, modelled as `none`; otherwise
`return self.play_white_noise()`, a real boolean, modelled as `some b`. -/
def toggleWhiteNoise (s : AudioState) : AudioState × Option Bool :=
  if isWhiteNoisePlaying s then
    (stopWhiteNoise s, none)
  else
    let r := playWhiteNoise s
    (r.1, some r.2)

/-- The three conditions `set_alarm` itself checks before mutating
anything: nonempty `days`, `hour ∈ [0,23]`, `minute ∈ [0,59]`. -/
def setAlarmInputOk (a : Alarm) : Prop :=
  a.days ≠ ∅ ∧ (0 ≤ a.hour ∧ a.hour ≤ 23) ∧ (0 ≤ a.minute ∧ a.minute ≤ 59)

instance (a : Alarm) : Decidable (setAlarmInputOk a) := by
  unfold setAlarmInputOk; infer_instance

/-! ### Concrete example states used in witnesses and counterexamples -/

/-- Key of one loaded alarm sound (the code uses `"alarm_" + filename`). -/
def chimeKey : String := "alarm_chime.ogg"

/-- A weekday alarm at 07:30 on schedule `"a"`, active. -/
def sampleAlarm : Alarm :=
  { id := "alarm-1"
    hour := 7
    minute := 30
    days := {0, 1, 2, 3, 4}
    schedule := "a"
    active := true }

/-- An alarm with an empty day set (rejected by `set_alarm` validation). -/
def noDaysAlarm : Alarm :=
  { id := "alarm-bad"
    hour := 7
    minute := 0
    days := ∅
    schedule := "a"
    active := true }

/-- An id present in `oneAlarmManager`. -/
def existsId : String := "exists"

/-- An id absent from `oneAlarmManager`. -/
def missingId : String := "missing"

/-- A manager state holding exactly one alarm, keyed `"exists"`. -/
def oneAlarmManager : AlarmManagerState :=
  { alarms := [(existsId, sampleAlarm)]
    schedulerJobs := [existsId]
    savedFile := none
    broadcasts := [] }

/-- An empty manager state. -/
def emptyManager : AlarmManagerState :=
  { alarms := []
    schedulerJobs := []
    savedFile := none
    broadcasts := [] }

/-- An audio state in which ambient (white noise) is playing at volume 50,
no alarm is playing, one alarm sound is loaded, and a mixer channel is
available. -/
def ambientAt50 : AudioState :=
  { alarmPlaying := false
    alarmChannel := none
    alarmSounds := [chimeKey]
    alarmVolume := 75
    whiteNoisePlaying := true
    whiteNoiseChannel := some { busy := true, volume := 50 }
    volume := 50
    previousVolume := 50
    settingsVolume := some 50
    sounds := [whiteNoiseKey, chimeKey]
    freeChannelAvailable := true
    notifications := [] }

/-- The audio state after the alarm has started in `ambientAt50`. -/
def alarmRinging : AudioState :=
  (playAlarm ambientAt50 0).1

/-! ### Helper lemmas about the audio state machine -/

theorem stopAlarm_alarmPlaying (s : AudioState) : (stopAlarm s).alarmPlaying = false := by
  cases h : s.alarmPlaying <;> simp [stopAlarm, h]

theorem stopAlarm_alarmChannel (s : AudioState) : (stopAlarm s).alarmChannel = none := by
  cases h : s.alarmPlaying <;> simp [stopAlarm, h]

theorem stopAlarm_whiteNoisePlaying (s : AudioState) :
    (stopAlarm s).whiteNoisePlaying = s.whiteNoisePlaying := by
  cases h : s.alarmPlaying <;> simp [stopAlarm, h]

theorem stopAlarm_whiteNoiseChannel (s : AudioState) :
    (stopAlarm s).whiteNoiseChannel = s.whiteNoiseChannel := by
  cases h : s.alarmPlaying <;> simp [stopAlarm, h]

theorem stopAlarm_volume (s : AudioState) : (stopAlarm s).volume = s.volume := by
  cases h : s.alarmPlaying <;> simp [stopAlarm, h]

theorem stopAlarm_notifications (s : AudioState) :
    (stopAlarm s).notifications =
      if s.alarmPlaying then s.notifications ++ [Notification.alarmStatus false]
      else s.notifications := by
  cases h : s.alarmPlaying <;> simp [stopAlarm, h]

theorem stopAlarm_of_stopped (s : AudioState) (h1 : s.alarmPlaying = false)
    (h2 : s.alarmChannel = none) : stopAlarm s = s := by
  unfold stopAlarm
  rw [h1]
  cases s
  simp_all

theorem stopWhiteNoise_whiteNoisePlaying (s : AudioState) :
    (stopWhiteNoise s).whiteNoisePlaying = false := by
  cases h : s.whiteNoisePlaying <;> simp [stopWhiteNoise, h]

theorem stopWhiteNoise_whiteNoiseChannel (s : AudioState) :
    (stopWhiteNoise s).whiteNoiseChannel = none := by
  cases h : s.whiteNoisePlaying <;> simp [stopWhiteNoise, h]

theorem stopWhiteNoise_volume (s : AudioState) : (stopWhiteNoise s).volume = s.volume := by
  cases h : s.whiteNoisePlaying <;> simp [stopWhiteNoise, h]

theorem stopWhiteNoise_freeChannelAvailable (s : AudioState) :
    (stopWhiteNoise s).freeChannelAvailable = s.freeChannelAvailable := by
  cases h : s.whiteNoisePlaying <;> simp [stopWhiteNoise, h]

theorem stopWhiteNoise_sounds (s : AudioState) : (stopWhiteNoise s).sounds = s.sounds := by
  cases h : s.whiteNoisePlaying <;> simp [stopWhiteNoise, h]

theorem isWhiteNoisePlaying_stopWhiteNoise (s : AudioState) :
    isWhiteNoisePlaying (stopWhiteNoise s) = false := by
  unfold isWhiteNoisePlaying
  rw [stopWhiteNoise_whiteNoisePlaying]
  rfl

theorem isAlarmPlaying_stopAlarm (s : AudioState) :
    isAlarmPlaying (stopAlarm s) = false := by
  unfold isAlarmPlaying
  rw [stopAlarm_alarmChannel]

/-- After a successful or failed `play_alarm` with a nonempty sound pool,
the white-noise channel has been stopped and the master volume field is
untouched. -/
theorem playAlarm_whiteNoise_stopped (s : AudioState) (choice : Nat)
    (h : s.alarmSounds ≠ []) :
    (playAlarm s choice).1.whiteNoisePlaying = false ∧
    (playAlarm s choice).1.whiteNoiseChannel = none ∧
    (playAlarm s choice).1.volume = s.volume := by
  unfold playAlarm
  rw [if_neg h]
  dsimp only
  split
  · exact ⟨stopWhiteNoise_whiteNoisePlaying _, stopWhiteNoise_whiteNoiseChannel _, by
      rw [stopWhiteNoise_volume, stopAlarm_volume]⟩
  · split
    · exact ⟨stopWhiteNoise_whiteNoisePlaying _, stopWhiteNoise_whiteNoiseChannel _, by
        rw [stopWhiteNoise_volume, stopAlarm_volume]⟩
    · refine ⟨?_, ?_, ?_⟩ <;>
        simp [stopWhiteNoise_whiteNoisePlaying, stopWhiteNoise_whiteNoiseChannel,
          stopWhiteNoise_volume, stopAlarm_volume]

/-! ### Claim theorems -/

/-- Claim C1: trigger gating matrix. When a scheduled alarm fires,
`_trigger_alarm` plays sound if and only if the alarm exists in the store,
the global schedule is not `"off"`, the global schedule equals the alarm's
schedule tag, and the alarm is active; every other case blocks (and the
function is total, so blocking never raises). The concrete rows of the
matrix (global `"off"` never plays; global `"a"` with alarm `"a"` active
plays; mismatched tag blocks; inactive blocks) are instances of the
equivalence. -/
theorem trigger_gating_matrix (alarms : AlarmStore) (schedule : String) (alarmId : String) :
    triggerAlarm alarms schedule alarmId = true ↔
      ∃ a, storeGet alarms alarmId = some a ∧
        schedule ≠ scheduleOff ∧ schedule = a.schedule ∧ a.active = true := by
  unfold triggerAlarm
  cases hg : storeGet alarms alarmId with
  | none => simp
  | some a =>
    by_cases h1 : schedule = scheduleOff <;>
      by_cases h2 : schedule = a.schedule <;>
        cases h3 : a.active <;>
          simp [h1, h2, h3]

/-- Claim C4, counterexample: `_save_alarms` was claimed to write a
temporary file and rename it over the target; at the concrete input `[]`
its file-system trace is a single direct write, not a write followed by a
rename of a temporary file onto `alarms.json`. -/
theorem save_temp_rename_counterexample :
    ¬ ∃ (tmp : String) (content : List AlarmDict),
        saveAlarmsFsTrace [] =
          [FsOp.write tmp content, FsOp.rename tmp alarmsFilePath] := by
  rintro ⟨tmp, content, h⟩
  simp [saveAlarmsFsTrace] at h

/-- Claim C4, amended: `_save_alarms` writes the full current alarm set
(every alarm's record is in the written content) directly to the target
path in one write; its trace contains no rename, so the write-temp-then-
rename atomicity protection described by the claim is absent. -/
theorem save_alarms_single_direct_write (alarms : List Alarm) :
    ∃ content,
      saveAlarmsFsTrace alarms = [FsOp.write alarmsFilePath content] ∧
      (∀ a ∈ alarms, Alarm.to_dict a ∈ content) ∧
      ∀ src dst, FsOp.rename src dst ∉ saveAlarmsFsTrace alarms := by
  refine ⟨saveAlarms alarms, rfl, ?_, ?_⟩
  · intro a ha
    exact List.mem_map_of_mem _ ha
  · intro src dst
    simp [saveAlarmsFsTrace]

/-- Claim C4, witness for the amended statement at a concrete input. -/
theorem save_alarms_single_direct_write_witness :
    ∃ content,
      saveAlarmsFsTrace [sampleAlarm] = [FsOp.write alarmsFilePath content] ∧
      (∀ a ∈ [sampleAlarm], Alarm.to_dict a ∈ content) ∧
      ∀ src dst, FsOp.rename src dst ∉ saveAlarmsFsTrace [sampleAlarm] :=
  save_alarms_single_direct_write [sampleAlarm]

/-- Helper for Claim C5: a valid alarm survives `to_dict` followed by
`from_dict` unchanged — the days list converts back to the same set. -/
theorem alarm_dict_roundtrip (a : Alarm) (h : alarmValid a) :
    Alarm.from_dict (Alarm.to_dict a) = some a := by
  obtain ⟨h1, h2, h3, h4, h5, h6, h7, h8⟩ := h
  unfold Alarm.from_dict
  rw [if_pos]
  · cases a with
    | mk id hour minute days schedule active =>
      simp [Alarm.to_dict, Finset.sort_toFinset]
  · simp only [alarmDictValid, Alarm.to_dict, Finset.sort_toFinset]
    exact ⟨h1, h2, h3, h4, h5, h6, h7, h8⟩

/-- Claim C5: save/load round-trip. For any valid alarm `a`, serializing
the singleton set through `_save_alarms` and loading it back through
`_load_alarms` yields a store whose entry at `a.id` is an alarm equal to
`a` in every field (`days` being a `Finset`, the comparison is exactly set
equality of the list-of-ints serialization converted back). -/
theorem save_load_roundtrip (a : Alarm) (h : alarmValid a) :
    storeGet (loadAlarms (saveAlarms [a])) a.id = some a := by
  unfold saveAlarms loadAlarms
  simp only [List.map_cons, List.map_nil, List.foldl_cons, List.foldl_nil,
    alarm_dict_roundtrip a h]
  simp [storeGet, storeSet, storeContains]

/-- Claim C5, witness: the round-trip at the concrete alarm `sampleAlarm`. -/
theorem save_load_roundtrip_witness :
    alarmValid sampleAlarm ∧
    storeGet (loadAlarms (saveAlarms [sampleAlarm])) sampleAlarm.id = some sampleAlarm :=
  ⟨by decide, save_load_roundtrip sampleAlarm (by decide)⟩

/-- Claim C2, counterexample: in `ambientAt50` ambient is playing at
volume 50, yet after `play_alarm()` followed by `stop_alarm()` the
ambient channel reference is `none` and ambient is not playing — no
channel volume was restored from any pre-alarm snapshot, refuting the
ducking round-trip as claimed. -/
theorem ducking_roundtrip_counterexample :
    isWhiteNoisePlaying ambientAt50 = true ∧
    ambientAt50.whiteNoiseChannel.map PygameChannel.volume = some 50 ∧
    (stopAlarm alarmRinging).whiteNoiseChannel = none ∧
    isWhiteNoisePlaying (stopAlarm alarmRinging) = false := by
  decide

/-- Claim C2, amended: `play_alarm` stops the ambient channel outright
(via `stop_white_noise`) instead of ducking it, and `stop_alarm` contains
no restore step; so after `play_alarm(); stop_alarm()` ambient is not
playing and its channel reference is cleared. The stored master volume
field is untouched by the cycle, so ambient restarted manually would play
at the original volume V. -/
theorem alarm_cycle_leaves_ambient_stopped (s : AudioState) (choice : Nat)
    (h : s.alarmSounds ≠ []) :
    isWhiteNoisePlaying (stopAlarm (playAlarm s choice).1) = false ∧
    (stopAlarm (playAlarm s choice).1).whiteNoiseChannel = none ∧
    (stopAlarm (playAlarm s choice).1).volume = s.volume := by
  obtain ⟨h1, h2, h3⟩ := playAlarm_whiteNoise_stopped s choice h
  refine ⟨?_, ?_, ?_⟩
  · unfold isWhiteNoisePlaying
    rw [stopAlarm_whiteNoisePlaying, h1]
    rfl
  · rw [stopAlarm_whiteNoiseChannel, h2]
  · rw [stopAlarm_volume, h3]

/-- Claim C2, witness for the amended statement at `ambientAt50`. -/
theorem alarm_cycle_leaves_ambient_stopped_witness :
    ambientAt50.alarmSounds ≠ [] ∧
    isWhiteNoisePlaying (stopAlarm (playAlarm ambientAt50 0).1) = false ∧
    (stopAlarm (playAlarm ambientAt50 0).1).whiteNoiseChannel = none ∧
    (stopAlarm (playAlarm ambientAt50 0).1).volume = ambientAt50.volume :=
  ⟨by decide, alarm_cycle_leaves_ambient_stopped ambientAt50 0 (by decide)⟩

/-- Claim C3, counterexample: in `ambientAt50` ambient is playing; a
successful `play_alarm()` leaves ambient NOT playing (its flag and
channel are cleared), refuting the claim that `play_alarm` only
attenuates and never stops the ambient channel. -/
theorem play_alarm_ambient_counterexample :
    isWhiteNoisePlaying ambientAt50 = true ∧
    (playAlarm ambientAt50 0).2 = true ∧
    isWhiteNoisePlaying alarmRinging = false ∧
    alarmRinging.whiteNoisePlaying = false := by
  decide

/-- Claim C3, amended: whenever the alarm-sound pool is nonempty,
`play_alarm` stops the ambient channel entirely — afterwards ambient is
not playing and its channel reference is `none`; the volume field alone
is preserved. -/
theorem play_alarm_stops_ambient_channel (s : AudioState) (choice : Nat)
    (h : s.alarmSounds ≠ []) :
    isWhiteNoisePlaying (playAlarm s choice).1 = false ∧
    (playAlarm s choice).1.whiteNoiseChannel = none ∧
    (playAlarm s choice).1.volume = s.volume := by
  obtain ⟨h1, h2, h3⟩ := playAlarm_whiteNoise_stopped s choice h
  refine ⟨?_, h2, h3⟩
  unfold isWhiteNoisePlaying
  rw [h1]
  rfl

/-- Claim C3, witness for the amended statement at `ambientAt50`. -/
theorem play_alarm_stops_ambient_channel_witness :
    ambientAt50.alarmSounds ≠ [] ∧
    isWhiteNoisePlaying (playAlarm ambientAt50 0).1 = false ∧
    (playAlarm ambientAt50 0).1.whiteNoiseChannel = none ∧
    (playAlarm ambientAt50 0).1.volume = ambientAt50.volume :=
  ⟨by decide, play_alarm_stops_ambient_channel ambientAt50 0 (by decide)⟩

/-- Claim C8: `stop_alarm` is idempotent with edge-triggered
notification. A second consecutive call is a no-op producing the
identical state (hence `is_alarm_playing()` is `false` after either), a
call made during playback emits exactly one `alarm_status(false)`
broadcast, and a call made while the alarm is not playing (the
`_alarm_playing` flag, which is the code's edge detector, is `false`)
emits none; the function is total, so no call raises. -/
theorem stop_alarm_idempotent_single_edge (s : AudioState) :
    stopAlarm (stopAlarm s) = stopAlarm s ∧
    isAlarmPlaying (stopAlarm s) = false ∧
    (s.alarmPlaying = true →
      (stopAlarm s).notifications =
        s.notifications ++ [Notification.alarmStatus false]) ∧
    (s.alarmPlaying = false →
      (stopAlarm s).notifications = s.notifications) := by
  refine ⟨stopAlarm_of_stopped _ (stopAlarm_alarmPlaying s) (stopAlarm_alarmChannel s),
    isAlarmPlaying_stopAlarm s, ?_, ?_⟩
  · intro h
    rw [stopAlarm_notifications, if_pos h]
  · intro h
    rw [stopAlarm_notifications, h]
    rfl

/-- Claim C8, witness: at `alarmRinging` (alarm playing) the first stop
broadcasts exactly one status change, and the second stop changes
nothing. -/
theorem stop_alarm_idempotent_single_edge_witness :
    alarmRinging.alarmPlaying = true ∧
    (stopAlarm alarmRinging).notifications =
      alarmRinging.notifications ++ [Notification.alarmStatus false] ∧
    stopAlarm (stopAlarm alarmRinging) = stopAlarm alarmRinging ∧
    isAlarmPlaying (stopAlarm alarmRinging) = false :=
  ⟨by decide,
   (stop_alarm_idempotent_single_edge alarmRinging).2.2.1 (by decide),
   (stop_alarm_idempotent_single_edge alarmRinging).1,
   (stop_alarm_idempotent_single_edge alarmRinging).2.1⟩

/-- Claim C10: on the stop branch `toggle_white_noise` returns the result
of `stop_white_noise()`, which is Python `None` (modelled `none`), not a
boolean — for every state with white noise playing, the toggle stops it
and returns `none`; only the play branch can ever return `True`. -/
theorem toggle_white_noise_stop_branch (s : AudioState)
    (h : isWhiteNoisePlaying s = true) :
    toggleWhiteNoise s = (stopWhiteNoise s, none) ∧
    isWhiteNoisePlaying (toggleWhiteNoise s).1 = false ∧
    ∀ s' : AudioState, (toggleWhiteNoise s').2 = some true →
      isWhiteNoisePlaying s' = false := by
  refine ⟨?_, ?_, ?_⟩
  · unfold toggleWhiteNoise
    rw [if_pos h]
  · unfold toggleWhiteNoise
    rw [if_pos h]
    exact isWhiteNoisePlaying_stopWhiteNoise s
  · intro s' h'
    by_cases hw : isWhiteNoisePlaying s' = true
    · unfold toggleWhiteNoise at h'
      rw [if_pos hw] at h'
      simp at h'
    · simpa using hw

/-- Claim C10, witness: toggling in `ambientAt50` (white noise playing)
stops it and returns `none`. -/
theorem toggle_white_noise_stop_branch_witness :
    isWhiteNoisePlaying ambientAt50 = true ∧
    toggleWhiteNoise ambientAt50 = (stopWhiteNoise ambientAt50, none) ∧
    isWhiteNoisePlaying (toggleWhiteNoise ambientAt50).1 = false :=
  ⟨by decide,
   (toggle_white_noise_stop_branch ambientAt50 (by decide)).1,
   (toggle_white_noise_stop_branch ambientAt50 (by decide)).2.1⟩

/-- Claim C6: `set_alarm` rejects invalid input atomically. An alarm with
empty `days`, out-of-range `hour`, or out-of-range `minute` makes
`set_alarm` raise a validation error with the whole manager state (store,
scheduler jobs, persisted file, broadcasts) untouched; a valid alarm is
inserted or replaced in the store, scheduled, saved and broadcast. -/
theorem set_alarm_validation_atomic (st : AlarmManagerState) (a : Alarm) :
    (¬ setAlarmInputOk a →
      (setAlarm st a).1 = st ∧ (setAlarm st a).2.isSome = true) ∧
    (setAlarmInputOk a →
      (setAlarm st a).2 = none ∧
      (setAlarm st a).1.alarms = storeSet st.alarms a.id a ∧
      (setAlarm st a).1.schedulerJobs = scheduleAdd st.schedulerJobs a.id ∧
      (setAlarm st a).1.savedFile = some (storeSnapshot (storeSet st.alarms a.id a)) ∧
      (setAlarm st a).1.broadcasts =
        st.broadcasts ++ [storeSnapshot (storeSet st.alarms a.id a)]) := by
  unfold setAlarm setAlarmInputOk
  by_cases hd : a.days = ∅
  · simp [hd]
  · by_cases hh : 0 ≤ a.hour ∧ a.hour ≤ 23
    · by_cases hm : 0 ≤ a.minute ∧ a.minute ≤ 59
      · simp [hd, hh, hm]
      · simp [hd, hh, hm]
    · simp [hd, hh]

/-- Claim C6, witness: the empty-days alarm is rejected leaving the empty
manager untouched, and the valid `sampleAlarm` is accepted. -/
theorem set_alarm_validation_atomic_witness :
    (¬ setAlarmInputOk noDaysAlarm ∧
      (setAlarm emptyManager noDaysAlarm).1 = emptyManager ∧
      (setAlarm emptyManager noDaysAlarm).2.isSome = true) ∧
    (setAlarmInputOk sampleAlarm ∧
      (setAlarm emptyManager sampleAlarm).2 = none) :=
  ⟨⟨by decide, (set_alarm_validation_atomic emptyManager noDaysAlarm).1 (by decide)⟩,
   by decide, ((set_alarm_validation_atomic emptyManager sampleAlarm).2 (by decide)).1⟩

/-- Claim C7: `adjust_volume` validates atomically. A volume outside
`[0,100]` raises the `ValueError` with the state — in particular the
stored `_volume` — entirely unchanged; a volume inside the range succeeds
and the stored `_volume` becomes exactly `v`. -/
theorem adjust_volume_validation_atomic (s : AudioState) (v : Int) :
    (¬(0 ≤ v ∧ v ≤ 100) → adjustVolume s v = (s, some errVolumeRange)) ∧
    ((0 ≤ v ∧ v ≤ 100) →
      (adjustVolume s v).2 = none ∧ (adjustVolume s v).1.volume = v) := by
  constructor
  · intro hc
    unfold adjustVolume
    rw [if_pos hc]
  · intro h
    unfold adjustVolume
    rw [if_neg (not_not_intro h)]
    refine ⟨rfl, ?_⟩
    cases hc : s.whiteNoiseChannel <;> simp only [hc] <;> split <;> rfl

/-- Claim C7, witness: volume 150 is rejected with `ambientAt50`
unchanged; volume 30 is accepted and stored. -/
theorem adjust_volume_validation_atomic_witness :
    (¬(0 ≤ (150 : Int) ∧ (150 : Int) ≤ 100) ∧
      adjustVolume ambientAt50 150 = (ambientAt50, some errVolumeRange)) ∧
    ((0 ≤ (30 : Int) ∧ (30 : Int) ≤ 100) ∧
      (adjustVolume ambientAt50 30).2 = none ∧
      (adjustVolume ambientAt50 30).1.volume = 30) :=
  ⟨⟨by decide, (adjust_volume_validation_atomic ambientAt50 150).1 (by decide)⟩,
   ⟨by decide, (adjust_volume_validation_atomic ambientAt50 30).2 (by decide)⟩⟩

theorem storeDel_cons (p : String × Alarm) (t : AlarmStore) (id : String) :
    storeDel (p :: t) id =
      if p.1 = id then storeDel t id else p :: storeDel t id := by
  simp only [storeDel, List.filter_cons]
  by_cases h : p.1 = id <;> simp [h]

theorem storeContains_cons (p : String × Alarm) (t : AlarmStore) (id : String) :
    storeContains (p :: t) id = ((p.1 == id) || storeContains t id) := by
  simp [storeContains]

theorem storeContains_storeDel (al : AlarmStore) (x id : String) :
    storeContains (storeDel al x) id = (storeContains al id && !(id == x)) := by
  induction al with
  | nil => rfl
  | cons p t ih =>
    rw [storeDel_cons, storeContains_cons]
    by_cases hp : p.1 = x
    · rw [if_pos hp, ih]
      by_cases hid : id = x
      · simp [hid]
      · have hpid : (p.1 == id) = false := by
          subst hp
          exact beq_eq_false_iff_ne.mpr fun hxid => hid hxid.symm
        simp [hpid]
    · rw [if_neg hp, storeContains_cons, ih]
      by_cases hid : id = x
      · subst hid
        have hpid : (p.1 == id) = false := beq_eq_false_iff_ne.mpr hp
        simp [hpid]
      · have hx : (id == x) = false := beq_eq_false_iff_ne.mpr hid
        cases hq : (p.1 == id) <;> simp [hx, hq]

theorem removeAlarmsStep_triple (al : AlarmStore) (jb : List String) (fl : Bool)
    (id : String) :
    removeAlarmsStep (al, jb, fl) id =
      if storeContains al id = true then (storeDel al id, scheduleRemove jb id, fl)
      else (al, jb, false) := by
  unfold removeAlarmsStep
  by_cases h : storeContains al id = true <;> simp [h]

theorem removeAlarmsFold_flagFalse (ids : List String) :
    ∀ al jb, (ids.foldl removeAlarmsStep (al, jb, false)).2.2 = false := by
  induction ids with
  | nil => intro al jb; rfl
  | cons x t ih =>
    intro al jb
    rw [List.foldl_cons, removeAlarmsStep_triple]
    by_cases h : storeContains al x = true
    · rw [if_pos h]; exact ih _ _
    · rw [if_neg h]; exact ih _ _

theorem removeAlarmsFold_flag (ids : List String) :
    ∀ al jb, (ids.foldl removeAlarmsStep (al, jb, true)).2.2 = true ↔
      ids.Nodup ∧ ∀ id ∈ ids, storeContains al id = true := by
  induction ids with
  | nil => intro al jb; simp
  | cons x t ih =>
    intro al jb
    rw [List.foldl_cons, removeAlarmsStep_triple]
    by_cases h : storeContains al x = true
    · rw [if_pos h, ih]
      constructor
      · rintro ⟨hnd, hall⟩
        refine ⟨List.nodup_cons.mpr ⟨?_, hnd⟩, ?_⟩
        · intro hxt
          have hfx := hall x hxt
          rw [storeContains_storeDel] at hfx
          simp at hfx
        · intro id hid
          rcases List.mem_cons.mp hid with rfl | hid'
          · exact h
          · have hfi := hall id hid'
            rw [storeContains_storeDel, Bool.and_eq_true] at hfi
            exact hfi.1
      · rintro ⟨hnd, hall⟩
        obtain ⟨hx, hnd'⟩ := List.nodup_cons.mp hnd
        refine ⟨hnd', fun id hid => ?_⟩
        rw [storeContains_storeDel, Bool.and_eq_true]
        refine ⟨hall id (List.mem_cons_of_mem _ hid), ?_⟩
        have hne : id ≠ x := fun hidx => hx (hidx ▸ hid)
        simp [beq_eq_false_iff_ne.mpr hne]
    · rw [if_neg h, removeAlarmsFold_flagFalse t al jb]
      simp only [Bool.false_eq_true, false_iff, not_and]
      intro hnd hall
      exact h (hall x (List.mem_cons_self x t))

theorem removeAlarmsFold_absent (ids : List String) :
    ∀ al jb fl id, storeContains al id = false →
      storeContains (ids.foldl removeAlarmsStep (al, jb, fl)).1 id = false := by
  induction ids with
  | nil => intro al jb fl id h; exact h
  | cons x t ih =>
    intro al jb fl id h
    rw [List.foldl_cons, removeAlarmsStep_triple]
    by_cases hc : storeContains al x = true
    · rw [if_pos hc]
      apply ih
      rw [storeContains_storeDel, h]
      rfl
    · rw [if_neg hc]
      exact ih _ _ _ _ h

theorem removeAlarmsFold_removes (ids : List String) :
    ∀ al jb fl id, id ∈ ids →
      storeContains (ids.foldl removeAlarmsStep (al, jb, fl)).1 id = false := by
  induction ids with
  | nil => intro al jb fl id h; exact absurd h (List.not_mem_nil id)
  | cons x t ih =>
    intro al jb fl id hid
    rw [List.foldl_cons, removeAlarmsStep_triple]
    rcases List.mem_cons.mp hid with rfl | hid'
    · by_cases hc : storeContains al id = true
      · rw [if_pos hc]
        apply removeAlarmsFold_absent
        rw [storeContains_storeDel]
        simp
      · rw [if_neg hc]
        simp only [Bool.not_eq_true] at hc
        exact removeAlarmsFold_absent _ _ _ _ _ hc
    · by_cases hc : storeContains al x = true
      · rw [if_pos hc]; exact ih _ _ _ _ hid'
      · rw [if_neg hc]; exact ih _ _ _ _ hid'

/-- Claim C9: partial removal reporting. `remove_alarms` removes every
requested id that is present, never raises for absent ids (the function
is total and the missing branch only clears the flag), and returns `true`
exactly when every one of its lookups succeeded — equivalently, when the
requested ids are pairwise distinct and each was present in the store
before the call (a duplicated id is no longer found on its second
occurrence, because the first occurrence deleted it). Afterwards the
store contains none of the requested ids. -/
theorem remove_alarms_partial_reporting (st : AlarmManagerState) (ids : List String) :
    (∀ id ∈ ids, storeContains (removeAlarms st ids).1.alarms id = false) ∧
    ((removeAlarms st ids).2 = true ↔
      ids.Nodup ∧ ∀ id ∈ ids, storeContains st.alarms id = true) := by
  unfold removeAlarms
  by_cases hids : ids = []
  · subst hids
    simp
  · rw [if_neg hids]
    constructor
    · intro id hid
      exact removeAlarmsFold_removes ids st.alarms st.schedulerJobs true id hid
    · exact removeAlarmsFold_flag ids st.alarms st.schedulerJobs

/-- Claim C9, witness: with only `"exists"` in the store,
`remove_alarms(["exists","missing"])` removes `"exists"`, returns
`false`, and afterwards the store contains neither id. -/
theorem remove_alarms_partial_reporting_witness :
    storeContains (removeAlarms oneAlarmManager [existsId, missingId]).1.alarms existsId
        = false ∧
    storeContains (removeAlarms oneAlarmManager [existsId, missingId]).1.alarms missingId
        = false ∧
    (removeAlarms oneAlarmManager [existsId, missingId]).2 = false :=
  ⟨(remove_alarms_partial_reporting oneAlarmManager [existsId, missingId]).1
      existsId (by decide),
   (remove_alarms_partial_reporting oneAlarmManager [existsId, missingId]).1
      missingId (by decide),
   by decide⟩

end PiAlarmBlock
